import Mathlib

/-!
# Verification of the content-moderation worker's risk decision engine

Shallow embedding of `src/services/azureModerationService.js` together with the
moderation configuration of `src/config/config.js`.

Modelling decisions:
* A classifier category entry (`CategoryScore`) carries its category name as a
  `String` (the source compares with `===` against string literals) and its
  severity as an `Option ℚ`: `none` models a missing / non-numeric severity
  (JavaScript `undefined`), for which every `severity >= t` comparison is
  false and `severity || 0` yields `0`.
* JavaScript numbers are modelled as `ℚ`; the configured bonuses (`0.5`) and
  the boosted scores are rationals.
* The HTTP/circuit-breaker layer is modelled by its observable outcome: a
  classifier call either throws (timeout, breaker open, non-200 status,
  transport error — `Except.error`) or yields a 200 response body whose
  `categoriesAnalysis` field may be absent (`Except.ok` of
  `AzureResponseBody`); `_callAzureAPI` defaults a missing field to `[]`
  (`result.categoriesAnalysis || []`) and `moderateImage` dispatches on the
  outcome exactly as the `try/catch` in the source does.
-/

/-- One entry of `categoriesAnalysis` as returned by the classifier:
`{ category: string, severity: number }`, with `none` standing for a
missing or non-numeric severity. -/
structure CategoryScore where
  category : String
  severity : Option ℚ
deriving DecidableEq, Repr

/-- JavaScript `c.severity >= t`: false when the severity is missing
(`undefined >= t` is false), the numeric comparison otherwise. -/
def sevGE (s : Option ℚ) (t : ℚ) : Bool :=
  match s with
  | some v => decide (t ≤ v)
  | none => false

/-- JavaScript `cat.severity || 0`: the severity if present, `0` otherwise. -/
def sevOr0 (s : Option ℚ) : ℚ :=
  s.getD 0

/-- `config.moderation.thresholds` of `src/config/config.js`. -/
structure Thresholds where
  violence : ℚ
  weapons : ℚ
  hate : ℚ
  selfHarm : ℚ
  sexual : ℚ
  child : ℚ
deriving DecidableEq, Repr

/-- `config.moderation.rules` of `src/config/config.js`. -/
structure Rules where
  childWithViolence : Bool
  childWithHate : Bool
  sexualWithChild : Bool
  weaponBonus : ℚ
  violenceBonus : ℚ
deriving DecidableEq, Repr

/-- The configured default thresholds (violence 1, weapons 1, hate 1,
selfHarm 1, sexual 3, child 1). -/
def defaultThresholds : Thresholds :=
  ⟨1, 1, 1, 1, 3, 1⟩

/-- The configured default special rules: every compound rule enabled,
both severity bonuses `0.5`. -/
def defaultRules : Rules :=
  ⟨true, true, true, 1/2, 1/2⟩

/-- Result of `_detectWeaponsAndViolence`. -/
structure WVScores where
  weaponScore : ℚ
  violenceScore : ℚ
deriving DecidableEq, Repr

/-- The body of the `for (const cat of categories)` loop of
`_detectWeaponsAndViolence`, updating the two running scores for one entry. -/
def detectStep (acc : WVScores) (cat : CategoryScore) : WVScores :=
  let violenceScore :=
    if cat.category == "Violence" then max acc.violenceScore (sevOr0 cat.severity)
    else acc.violenceScore
  let weaponScore :=
    if cat.category == "Hate" && sevGE cat.severity 1 then max acc.weaponScore (sevOr0 cat.severity)
    else acc.weaponScore
  let weaponScore :=
    if cat.category == "SelfHarm" && sevGE cat.severity 1 then max weaponScore (sevOr0 cat.severity)
    else weaponScore
  let violenceScore :=
    if cat.category == "Sexual" && sevGE cat.severity 3 then max violenceScore 1
    else violenceScore
  ⟨weaponScore, violenceScore⟩

/-- `_detectWeaponsAndViolence(categories)`: scan the entries accumulating the
two scores from `0`, then add the configured bonus to each score that is
strictly positive. -/
def detectWeaponsAndViolence (rules : Rules) (categories : List CategoryScore) : WVScores :=
  let s := categories.foldl detectStep ⟨0, 0⟩
  let violenceScore := if s.violenceScore > 0 then s.violenceScore + rules.violenceBonus else s.violenceScore
  let weaponScore := if s.weaponScore > 0 then s.weaponScore + rules.weaponBonus else s.weaponScore
  ⟨weaponScore, violenceScore⟩

/-- `{ rejected: bool, reason: string|null }`. -/
structure RuleOutcome where
  rejected : Bool
  reason : Option String
deriving DecidableEq, Repr

/-- Reason string of the baseline Child rule. -/
def childReason : String :=
  "🚨 ENFANT DÉTECTÉ - INTERDIT ABSOLU sur plateforme adulte"

/-- Reason string of the baseline Violence rule (template literal over the
boosted score). -/
def violenceReason (violenceScore : ℚ) : String :=
  "🔫 Violence détectée (score: " ++ toString violenceScore ++ ") - Seuil très bas pour plateforme adulte"

/-- Reason string of the baseline Weapons rule (template literal over the
boosted score). -/
def weaponReason (weaponScore : ℚ) : String :=
  "🚫 Arme/symbole violent détecté (score: " ++ toString weaponScore ++ ") - Interdit"

/-- Reason string of the baseline Hate rule. -/
def hateReason : String :=
  "🚫 Contenu haineux détecté - Interdit"

/-- Reason string of the baseline SelfHarm rule. -/
def selfHarmReason : String :=
  "🚫 Contenu d\x27automutilation/suicide détecté - Interdit"

/-- Reason string of the baseline Sexual rule. -/
def sexualReason : String :=
  "🔞 Contenu sexuel trop explicite - Interdit"

/-- Reason string of the `childWithViolence` compound rule. -/
def childWithViolenceReason : String :=
  "🚨 Enfant avec violence/armes - REJET IMMÉDIAT"

/-- Reason string of the `childWithHate` compound rule. -/
def childWithHateReason : String :=
  "🚨 Enfant avec contenu haineux - REJET IMMÉDIAT"

/-- Reason string of the `sexualWithChild` compound rule. -/
def sexualWithChildReason : String :=
  "🚨 Contenu sexuel avec enfant - REJET IMMÉDIAT"

/-- The `for (const rule of rules)` scan of `_applyModerationRules`: return
`{ rejected: true, reason }` for the first rule whose condition holds,
`{ rejected: false, reason: null }` when none does. -/
def firstMatch (rules : List (Bool × String)) : RuleOutcome :=
  match rules.find? (fun r => r.1) with
  | some r => ⟨true, some r.2⟩
  | none => ⟨false, none⟩

/-- `_applyModerationRules(categories)`: evaluate the ordered rule list (six
baseline rules, then each enabled compound rule) and return the first match,
`{ rejected: false, reason: null }` when none matches. -/
def applyModerationRules (th : Thresholds) (ru : Rules) (categories : List CategoryScore) : RuleOutcome :=
  let s := detectWeaponsAndViolence ru categories
  let weaponScore := s.weaponScore
  let violenceScore := s.violenceScore
  let baseRules : List (Bool × String) :=
    [ (categories.any fun c => c.category == "Child" && sevGE c.severity th.child,
        childReason),
      (decide (violenceScore ≥ th.violence),
        violenceReason violenceScore),
      (decide (weaponScore ≥ th.weapons),
        weaponReason weaponScore),
      (categories.any fun c => c.category == "Hate" && sevGE c.severity th.hate,
        hateReason),
      (categories.any fun c => c.category == "SelfHarm" && sevGE c.severity th.selfHarm,
        selfHarmReason),
      (categories.any fun c => c.category == "Sexual" && sevGE c.severity th.sexual,
        sexualReason) ]
  let compound1 : List (Bool × String) :=
    if ru.childWithViolence then
      [ ((categories.any fun c => c.category == "Child" && sevGE c.severity th.child) &&
          (decide (violenceScore ≥ th.violence) || decide (weaponScore ≥ th.weapons)),
          childWithViolenceReason) ]
    else []
  let compound2 : List (Bool × String) :=
    if ru.childWithHate then
      [ ((categories.any fun c => c.category == "Child" && sevGE c.severity th.child) &&
          (categories.any fun c => c.category == "Hate" && sevGE c.severity th.hate),
          childWithHateReason) ]
    else []
  let compound3 : List (Bool × String) :=
    if ru.sexualWithChild then
      [ ((categories.any fun c => c.category == "Sexual" && sevGE c.severity 2) &&
          (categories.any fun c => c.category == "Child" && sevGE c.severity th.child),
          sexualWithChildReason) ]
    else []
  firstMatch (baseRules ++ compound1 ++ compound2 ++ compound3)

/-- `_calculateAIScore(categories)`: `0` for an empty list, otherwise the sum
of the numeric severities (a non-numeric severity contributes `0`) divided by
the list length.  The source's trailing `isNaN` guard has no effect in `ℚ`,
where the quotient of two rationals is always a rational. -/
def calculateAIScore (categories : List CategoryScore) : ℚ :=
  if categories.length = 0 then 0
  else (categories.foldl (fun acc c => acc + (c.severity).getD 0) 0) / (categories.length : ℚ)

/-- `{ verdict, categories, rejectionReason, ai_score }` as produced by
`_callAzureAPI`, `_calculateVideoVerdict` and `_fallbackModeration`. -/
structure ClassificationResult where
  verdict : String
  categories : List CategoryScore
  rejectionReason : Option String
  ai_score : ℚ
deriving DecidableEq, Repr

/-- The pure tail of `_callAzureAPI`: given the parsed `categoriesAnalysis`
list, apply the moderation rules and build the verdict object. -/
def classifyCategories (th : Thresholds) (ru : Rules) (categories : List CategoryScore) : ClassificationResult :=
  let moderationResult := applyModerationRules th ru categories
  { verdict := if moderationResult.rejected then "rejected" else "accepted"
    categories := categories
    rejectionReason := moderationResult.reason
    ai_score := calculateAIScore categories }

/-- `_fallbackModeration(error)`: the fail-closed verdict returned whenever
the classifier call threw. -/
def fallbackModeration : ClassificationResult :=
  { verdict := "rejected"
    rejectionReason := some "Service de modération temporairement indisponible - Rejet par sécurité"
    categories := []
    ai_score := 0 }

/-- The parsed JSON body of a 200 response from the classifier:
`response.data`, whose `categoriesAnalysis` field may be absent (`none`). -/
structure AzureResponseBody where
  categoriesAnalysis : Option (List CategoryScore)
deriving DecidableEq, Repr

/-- `moderateImage(buffer)`: the classifier call either throws (timeout,
breaker open, non-200 status, transport error) — then the `catch` branch
returns `_fallbackModeration` — or yields a 200 body, whose possibly missing
`categoriesAnalysis` field `_callAzureAPI` defaults to `[]` via
`result.categoriesAnalysis || []` before applying the moderation rules. -/
def moderateImage {ε : Type} (th : Thresholds) (ru : Rules)
    (outcome : Except ε AzureResponseBody) : ClassificationResult :=
  match outcome with
  | Except.ok result => classifyCategories th ru ((result.categoriesAnalysis).getD [])
  | Except.error _ => fallbackModeration

/-- The frame loop of `moderateVideo`: classify each frame in order, pushing
each result, and break as soon as a frame's verdict is `"rejected"`.  The
returned list is exactly the sequence of classifier calls made. -/
def processFrames (th : Thresholds) (ru : Rules) : List (List CategoryScore) → List ClassificationResult
  | [] => []
  | f :: rest =>
    let r := classifyCategories th ru f
    if r.verdict == "rejected" then [r]
    else r :: processFrames th ru rest

/-- `_calculateVideoVerdict(results)`: pool every frame's categories; if some
frame was rejected, return `rejected` with that frame's reason (or a default
when it is null), otherwise `accepted`; either way the score is recomputed
over the pooled category list. -/
def calculateVideoVerdict (results : List ClassificationResult) : ClassificationResult :=
  let allCategories := (results.map (fun r => r.categories)).flatten
  match results.find? (fun r => r.verdict == "rejected") with
  | some rejectedResult =>
    { verdict := "rejected"
      rejectionReason :=
        some ((rejectedResult.rejectionReason).getD "Contenu inapproprié détecté dans les frames vidéo")
      categories := allCategories
      ai_score := calculateAIScore allCategories }
  | none =>
    { verdict := "accepted"
      categories := allCategories
      rejectionReason := none
      ai_score := calculateAIScore allCategories }

/-- `moderateVideo(thumbnails)` on the path where every classifier call
returns (per-frame classifier output given as the category list of each
frame): run the short-circuiting frame loop, then compute the global verdict. -/
def moderateVideo (th : Thresholds) (ru : Rules) (frames : List (List CategoryScore)) : ClassificationResult :=
  calculateVideoVerdict (processFrames th ru frames)

/-! ## Spec-side definitions used by the amended claims -/

/-- Contribution of one entry to the raw (pre-bonus) violence score: a
`Violence` entry contributes its severity, a `Sexual` entry with severity
`≥ 3` contributes `1`, every other entry contributes `0`. -/
def vContrib (c : CategoryScore) : ℚ :=
  if c.category == "Violence" then sevOr0 c.severity
  else if c.category == "Sexual" && sevGE c.severity 3 then 1
  else 0

/-- Contribution of one entry to the raw (pre-bonus) weapon score: a `Hate`
or `SelfHarm` entry with severity `≥ 1` contributes its severity, every other
entry contributes `0`. -/
def wContrib (c : CategoryScore) : ℚ :=
  if (c.category == "Hate" || c.category == "SelfHarm") && sevGE c.severity 1 then sevOr0 c.severity
  else 0

/-- Raw violence score: the maximum of the violence contributions, `0` for an
empty list. -/
def vMax (l : List CategoryScore) : ℚ :=
  l.foldr (fun c acc => max (vContrib c) acc) 0

/-- Raw weapon score: the maximum of the weapon contributions, `0` for an
empty list. -/
def wMax (l : List CategoryScore) : ℚ :=
  l.foldr (fun c acc => max (wContrib c) acc) 0

/-! ## Theorems -/

/-- C1: for every threshold configuration, rule configuration and category
list containing a `Child` entry whose severity meets the child threshold,
`_applyModerationRules` returns a rejected outcome, whatever other categories
and severities are present. -/
theorem child_zero_tolerance (th : Thresholds) (ru : Rules) (categories : List CategoryScore)
    (h : ∃ c ∈ categories, c.category = "Child" ∧ sevGE c.severity th.child = true) :
    (applyModerationRules th ru categories).rejected = true := by
  have hany : (categories.any fun c => c.category == "Child" && sevGE c.severity th.child) = true := by
    rw [List.any_eq_true]
    obtain ⟨c, hc, h1, h2⟩ := h
    exact ⟨c, hc, by simp [h1, h2]⟩
  simp [applyModerationRules, firstMatch, hany, List.find?]

/-- Witness for C1 at a concrete input: a `Child` entry of severity 1 next to
a harmless entry, under the configured defaults. -/
theorem child_zero_tolerance_witness :
    (∃ c ∈ [CategoryScore.mk "Child" (some 1), CategoryScore.mk "Violence" (some 0)],
        c.category = "Child" ∧ sevGE c.severity defaultThresholds.child = true) ∧
    (applyModerationRules defaultThresholds defaultRules
        [CategoryScore.mk "Child" (some 1), CategoryScore.mk "Violence" (some 0)]).rejected = true :=
  ⟨by decide, child_zero_tolerance defaultThresholds defaultRules _ (by decide)⟩

/-- C4: when none of the six baseline rule conditions holds — no `Child`,
`Hate`, `SelfHarm` or `Sexual` entry meets its category's threshold, and the
boosted violence and weapon scores are below their thresholds — the outcome is
`{ rejected := false, reason := none }`.  Each enabled compound condition is a
conjunction of baseline conditions, so under these hypotheses no compound rule
is satisfied either, exactly as the claim requires. -/
theorem no_rule_matches_accepts (th : Thresholds) (ru : Rules) (categories : List CategoryScore)
    (hChild : (categories.any fun c => c.category == "Child" && sevGE c.severity th.child) = false)
    (hV : ¬(th.violence ≤ (detectWeaponsAndViolence ru categories).violenceScore))
    (hW : ¬(th.weapons ≤ (detectWeaponsAndViolence ru categories).weaponScore))
    (hHate : (categories.any fun c => c.category == "Hate" && sevGE c.severity th.hate) = false)
    (hSelf : (categories.any fun c => c.category == "SelfHarm" && sevGE c.severity th.selfHarm) = false)
    (hSex : (categories.any fun c => c.category == "Sexual" && sevGE c.severity th.sexual) = false) :
    applyModerationRules th ru categories = ⟨false, none⟩ := by
  rcases ru with ⟨cw, ch, sc, wb, vb⟩
  cases cw <;> cases ch <;> cases sc <;>
    simp [applyModerationRules, firstMatch, List.find?, hChild, hHate, hSelf, hSex, hV, hW]

/-- Witness for C4 at a concrete input: a single `Sexual` entry of severity 2
under the configured defaults (sexual threshold 3, no boosted score reaches
its threshold). -/
theorem no_rule_matches_accepts_witness :
    (([CategoryScore.mk "Sexual" (some 2)].any fun c => c.category == "Child" && sevGE c.severity defaultThresholds.child) = false ∧
      ¬(defaultThresholds.violence ≤ (detectWeaponsAndViolence defaultRules [CategoryScore.mk "Sexual" (some 2)]).violenceScore) ∧
      ¬(defaultThresholds.weapons ≤ (detectWeaponsAndViolence defaultRules [CategoryScore.mk "Sexual" (some 2)]).weaponScore) ∧
      (([CategoryScore.mk "Sexual" (some 2)].any fun c => c.category == "Hate" && sevGE c.severity defaultThresholds.hate) = false) ∧
      (([CategoryScore.mk "Sexual" (some 2)].any fun c => c.category == "SelfHarm" && sevGE c.severity defaultThresholds.selfHarm) = false) ∧
      (([CategoryScore.mk "Sexual" (some 2)].any fun c => c.category == "Sexual" && sevGE c.severity defaultThresholds.sexual) = false)) ∧
    applyModerationRules defaultThresholds defaultRules [CategoryScore.mk "Sexual" (some 2)] = ⟨false, none⟩ :=
  ⟨⟨by decide, by decide, by decide, by decide, by decide, by decide⟩,
    no_rule_matches_accepts defaultThresholds defaultRules _
      (by decide) (by decide) (by decide) (by decide) (by decide) (by decide)⟩

/-- On every thrown classifier failure (timeout, breaker open, non-200
status, transport error — any error value whatsoever), `moderateImage`
returns the fail-closed fallback verdict: `"rejected"` with the fixed
service-unavailable reason, never `"accepted"`, and never lets the error
escape.  This covers the error half of the fail-closed property; the
malformed-200 path is settled separately below. -/
theorem moderateImage_error_fail_closed {ε : Type} (th : Thresholds) (ru : Rules) (e : ε) :
    moderateImage th ru (Except.error e) = fallbackModeration ∧
    (moderateImage th ru (Except.error e)).verdict = "rejected" ∧
    (moderateImage th ru (Except.error e)).rejectionReason =
      some "Service de modération temporairement indisponible - Rejet par sécurité" ∧
    (moderateImage th ru (Except.error e)).verdict ≠ "accepted" :=
  ⟨rfl, rfl, rfl, by simp [moderateImage, fallbackModeration]⟩

/-- C7: a malformed-but-successful classifier response refutes the
fail-closed claim on the code as written.  A 200 response whose body lacks
`categoriesAnalysis` does not throw: `_callAzureAPI` defaults the field to
`[]` (`result.categoriesAnalysis || []`), no rule matches the empty list,
and `moderateImage` returns verdict `"accepted"` with a null rejection
reason and score `0` — a fail-open outcome, where the claim (and the spec's
error-handling design, which treats malformed responses identically to
unavailability) requires the fixed `"rejected"` fallback. -/
theorem moderateImage_malformed_response_fail_open :
    (moderateImage defaultThresholds defaultRules
        (Except.ok (AzureResponseBody.mk none) : Except Unit AzureResponseBody)) =
      { verdict := "accepted", categories := [], rejectionReason := none, ai_score := 0 } ∧
    (moderateImage defaultThresholds defaultRules
        (Except.ok (AzureResponseBody.mk none) : Except Unit AzureResponseBody)).verdict ≠
      "rejected" ∧
    (moderateImage defaultThresholds defaultRules
        (Except.ok (AzureResponseBody.mk none) : Except Unit AzureResponseBody)) ≠
      fallbackModeration :=
  ⟨rfl, by decide, by decide⟩

/-- C10: on an empty frame list `moderateVideo` makes no classifier call
(the frame loop produces no result) and returns `"accepted"` with an empty
category list and an aggregate score of `0`. -/
theorem moderateVideo_empty_accepts (th : Thresholds) (ru : Rules) :
    processFrames th ru [] = [] ∧
    moderateVideo th ru [] =
      { verdict := "accepted", categories := [], rejectionReason := none, ai_score := 0 } :=
  ⟨rfl, rfl⟩

/-- C2 counterexample: for `[{Child,1},{Hate,1}]` under the default
configuration (childWithHate enabled, child and hate thresholds 1), the
outcome is rejected but its reason is NOT the compound child-with-hate
reason — the claim's asserted reason is wrong at this input. -/
theorem childWithHate_reason_counterexample :
    defaultRules.childWithHate = true ∧
    (applyModerationRules defaultThresholds defaultRules
        [CategoryScore.mk "Child" (some 1), CategoryScore.mk "Hate" (some 1)]).rejected = true ∧
    (applyModerationRules defaultThresholds defaultRules
        [CategoryScore.mk "Child" (some 1), CategoryScore.mk "Hate" (some 1)]).reason ≠
      some childWithHateReason := by
  refine ⟨rfl, rfl, ?_⟩
  decide

/-- C2 amended: for `[{Child,1},{Hate,1}]` under the default configuration the
outcome is rejected with the plain single-category Child reason — the baseline
Child rule precedes the compound rules and the first matching rule wins. -/
theorem childWithHate_plain_child_reason :
    applyModerationRules defaultThresholds defaultRules
        [CategoryScore.mk "Child" (some 1), CategoryScore.mk "Hate" (some 1)] =
      { rejected := true, reason := some childReason } := by
  rfl

/-- No violence reason string (whatever the interpolated score) equals the
sexual reason string: they already differ at their first character. -/
theorem violenceReason_ne_sexualReason (r : ℚ) : violenceReason r ≠ sexualReason := by
  intro h
  have hd : (violenceReason r).data = sexualReason.data := by rw [h]
  have h1 : (violenceReason r).data =
      '🔫' :: (" Violence détectée (score: ".data ++ (toString r).data ++
        ") - Seuil très bas pour plateforme adulte".data) := by
    simp [violenceReason, String.data_append]
  rw [h1] at hd
  have h2 : sexualReason.data = '🔞' :: " Contenu sexuel trop explicite - Interdit".data := rfl
  rw [h2] at hd
  have : '🔫' = '🔞' := List.head_eq_of_cons_eq hd
  exact absurd this (by decide)

/-- Boosted scores for `[{Sexual,3}]` under the default rules: the `Sexual`
entry of severity `≥ 3` sets the raw violence score to `1`, the bonus lifts
it to `3/2`; the weapon score stays `0`. -/
theorem detect_sexual3 :
    detectWeaponsAndViolence defaultRules [CategoryScore.mk "Sexual" (some 3)] = ⟨0, 3/2⟩ := by
  simp [detectWeaponsAndViolence, detectStep, sevGE, sevOr0, defaultRules]
  norm_num

/-- C3 amended: for `[{Sexual,3}]` with the default thresholds the outcome is
rejected with the violence reason at boosted score `3/2`: a `Sexual` entry of
severity `≥ 3` raises the violence score to `1`, the bonus raises it to
`3/2 ≥ thresholds.violence = 1`, and the Violence rule precedes the Sexual
rule in the ordered rule list. -/
theorem sexual3_violence_reason :
    applyModerationRules defaultThresholds defaultRules [CategoryScore.mk "Sexual" (some 3)] =
      { rejected := true, reason := some (violenceReason (3/2)) } := by
  simp only [applyModerationRules, detect_sexual3]
  norm_num [firstMatch, List.find?, sevGE, defaultThresholds]
  rfl

/-- C3 counterexample: for `[{Sexual,3}]` with the default thresholds
(`sexual = 3`), the outcome is rejected but its reason is NOT the
explicit-sexual-content reason — the claim's asserted reason is wrong at this
input. -/
theorem sexual3_reason_counterexample :
    (applyModerationRules defaultThresholds defaultRules
        [CategoryScore.mk "Sexual" (some 3)]).rejected = true ∧
    (applyModerationRules defaultThresholds defaultRules
        [CategoryScore.mk "Sexual" (some 3)]).reason ≠ some sexualReason := by
  have he : applyModerationRules defaultThresholds defaultRules [CategoryScore.mk "Sexual" (some 3)] =
      { rejected := true, reason := some (violenceReason (3/2)) } := by
    simp only [applyModerationRules, detect_sexual3]
    norm_num [firstMatch, List.find?, sevGE, defaultThresholds]
    rfl
  rw [he]
  refine ⟨rfl, ?_⟩
  intro hcontra
  have : violenceReason (3/2) = sexualReason := by injection hcontra
  exact violenceReason_ne_sexualReason (3/2) this

/-- C5 counterexample: `_calculateAIScore` is not "never negative" over all
category lists — a single entry with (numeric) severity `-2` yields the mean
`-2 < 0`. -/
theorem calculateAIScore_negative_counterexample :
    calculateAIScore [CategoryScore.mk "Sexual" (some (-2))] = -2 ∧
    calculateAIScore [CategoryScore.mk "Sexual" (some (-2))] < 0 := by
  constructor
  · norm_num [calculateAIScore]
  · norm_num [calculateAIScore]

/-- C5 amended: `_calculateAIScore` returns the arithmetic mean of the
severities (a missing/non-numeric severity contributes `0` but still counts
toward the length), returns `0` on the empty list, is always a well-defined
rational (the JavaScript `NaN` guard is vacuous), and is non-negative
whenever every numeric severity is non-negative. -/
theorem calculateAIScore_mean (categories : List CategoryScore)
    (h : ∀ c ∈ categories, 0 ≤ (c.severity).getD 0) :
    calculateAIScore categories =
      (categories.map fun c => (c.severity).getD 0).sum / (categories.length : ℚ) ∧
    0 ≤ calculateAIScore categories ∧
    calculateAIScore [] = 0 := by
  have hfold : ∀ (l : List CategoryScore) (a : ℚ),
      l.foldl (fun acc c => acc + (c.severity).getD 0) a =
        a + (l.map fun c => (c.severity).getD 0).sum := by
    intro l
    induction l with
    | nil => intro a; simp
    | cons x xs ih => intro a; simp [ih, add_assoc]
  have hmean : calculateAIScore categories =
      (categories.map fun c => (c.severity).getD 0).sum / (categories.length : ℚ) := by
    unfold calculateAIScore
    by_cases hl : categories.length = 0
    · rw [List.length_eq_zero] at hl
      subst hl
      simp
    · rw [if_neg hl, hfold, zero_add]
  refine ⟨hmean, ?_, rfl⟩
  rw [hmean]
  apply div_nonneg
  · apply List.sum_nonneg
    intro x hx
    obtain ⟨c, hc, rfl⟩ := List.mem_map.mp hx
    exact h c hc
  · exact Nat.cast_nonneg _

/-- Witness for C5's amended theorem at `[{severity:4},{severity:2}]`: the
hypotheses hold and the mean is `(4+2)/2 = 3`. -/
theorem calculateAIScore_mean_witness :
    (∀ c ∈ [CategoryScore.mk "Sexual" (some 4), CategoryScore.mk "Hate" (some 2)],
        0 ≤ (c.severity).getD 0) ∧
    (calculateAIScore [CategoryScore.mk "Sexual" (some 4), CategoryScore.mk "Hate" (some 2)] =
        ([CategoryScore.mk "Sexual" (some 4), CategoryScore.mk "Hate" (some 2)].map
            fun c => (c.severity).getD 0).sum /
          (([CategoryScore.mk "Sexual" (some 4), CategoryScore.mk "Hate" (some 2)] : List CategoryScore).length : ℚ) ∧
      0 ≤ calculateAIScore [CategoryScore.mk "Sexual" (some 4), CategoryScore.mk "Hate" (some 2)] ∧
      calculateAIScore [] = 0) :=
  ⟨by decide, calculateAIScore_mean _ (by decide)⟩

/-- The raw weapon score is never negative. -/
theorem wMax_nonneg (l : List CategoryScore) : 0 ≤ wMax l := by
  induction l with
  | nil => simp [wMax]
  | cons c cs ih =>
    simp only [wMax, List.foldr_cons] at ih ⊢
    exact le_max_of_le_right ih

/-- The raw violence score is never negative. -/
theorem vMax_nonneg (l : List CategoryScore) : 0 ≤ vMax l := by
  induction l with
  | nil => simp [vMax]
  | cons c cs ih =>
    simp only [vMax, List.foldr_cons] at ih ⊢
    exact le_max_of_le_right ih

/-- One loop iteration of `_detectWeaponsAndViolence` takes the running
maximum of each score with the entry's contribution (for non-negative
accumulators, which is invariant from the `0` start). -/
theorem detectStep_eq (w v : ℚ) (hw : 0 ≤ w) (hv : 0 ≤ v) (c : CategoryScore) :
    detectStep ⟨w, v⟩ c = ⟨max w (wContrib c), max v (vContrib c)⟩ := by
  rcases c with ⟨name, sev⟩
  by_cases h1 : name = "Violence"
  · subst h1
    simp [detectStep, wContrib, vContrib, max_eq_left hw]
  · by_cases h2 : name = "Hate"
    · subst h2
      cases hs : sevGE sev 1 <;>
        simp [detectStep, wContrib, vContrib, hs, max_eq_left hw, max_eq_left hv]
    · by_cases h3 : name = "SelfHarm"
      · subst h3
        cases hs : sevGE sev 1 <;>
          simp [detectStep, wContrib, vContrib, hs, max_eq_left hw, max_eq_left hv]
      · by_cases h4 : name = "Sexual"
        · subst h4
          cases hs : sevGE sev 3 <;>
            simp [detectStep, wContrib, vContrib, hs, max_eq_left hw, max_eq_left hv]
        · simp [detectStep, wContrib, vContrib, h1, h2, h3, h4, max_eq_left hw, max_eq_left hv]

/-- The `_detectWeaponsAndViolence` loop computes the running maxima of the
per-entry contributions. -/
theorem foldl_detectStep (l : List CategoryScore) : ∀ w v : ℚ, 0 ≤ w → 0 ≤ v →
    l.foldl detectStep ⟨w, v⟩ = ⟨max w (wMax l), max v (vMax l)⟩ := by
  induction l with
  | nil =>
    intro w v hw hv
    simp [wMax, vMax, max_eq_left hw, max_eq_left hv]
  | cons c cs ih =>
    intro w v hw hv
    rw [List.foldl_cons, detectStep_eq w v hw hv c,
      ih _ _ (le_trans hw (le_max_left _ _)) (le_trans hv (le_max_left _ _))]
    simp only [wMax, vMax, List.foldr_cons]
    rw [max_assoc, max_assoc]

/-- C6 amended: for every rule configuration and category list,
`_detectWeaponsAndViolence` returns, as raw violence score, the MAXIMUM of
the violence-entry severities and of `1` when a `Sexual` entry has severity
`≥ 3` (a maximum, not a sum), as raw weapon score the maximum severity among
`Hate`/`SelfHarm` entries of severity `≥ 1`, and adds the configured additive
bonus to each score that is nonzero (positive) before the bonus. -/
theorem detectWeaponsAndViolence_spec (ru : Rules) (categories : List CategoryScore) :
    detectWeaponsAndViolence ru categories =
      ⟨if 0 < wMax categories then wMax categories + ru.weaponBonus else wMax categories,
       if 0 < vMax categories then vMax categories + ru.violenceBonus else vMax categories⟩ := by
  unfold detectWeaponsAndViolence
  rw [foldl_detectStep categories 0 0 le_rfl le_rfl]
  simp [max_eq_right (wMax_nonneg categories), max_eq_right (vMax_nonneg categories)]

/-- C6 counterexample: for `[{Violence,1},{Sexual,3}]` under the default
rules the code yields violence score `max(1,1) + 0.5 = 3/2`, whereas the
claimed "plus 1" reading would yield `1 + 1 + 0.5 = 5/2`; the two differ. -/
theorem detect_max_not_plus_counterexample :
    (detectWeaponsAndViolence defaultRules
        [CategoryScore.mk "Violence" (some 1), CategoryScore.mk "Sexual" (some 3)]).violenceScore = 3/2 ∧
    (1 : ℚ) + 1 + defaultRules.violenceBonus = 5/2 ∧
    (3/2 : ℚ) ≠ 5/2 := by
  refine ⟨?_, by norm_num [defaultRules], by norm_num⟩
  simp [detectWeaponsAndViolence, detectStep, sevGE, sevOr0, defaultRules]
  norm_num

/-- A first-match outcome that is rejected always carries a reason. -/
theorem firstMatch_rejected_reason (l : List (Bool × String))
    (h : (firstMatch l).rejected = true) : ∃ s, (firstMatch l).reason = some s := by
  unfold firstMatch at h ⊢
  cases hf : l.find? (fun r => r.1) with
  | none => rw [hf] at h; simp at h
  | some r => exact ⟨r.2, rfl⟩

/-- A rejected rule outcome of `_applyModerationRules` always carries a
reason string. -/
theorem applyModerationRules_reason_of_rejected (th : Thresholds) (ru : Rules)
    (cats : List CategoryScore)
    (h : (applyModerationRules th ru cats).rejected = true) :
    ∃ s, (applyModerationRules th ru cats).reason = some s :=
  firstMatch_rejected_reason _ h

/-- A frame classified `"rejected"` carries a rejection reason. -/
theorem classify_rejected_reason (th : Thresholds) (ru : Rules) (f : List CategoryScore)
    (h : (classifyCategories th ru f).verdict = "rejected") :
    ∃ s, (classifyCategories th ru f).rejectionReason = some s := by
  have hm : (applyModerationRules th ru f).rejected = true := by
    by_contra hm
    rw [Bool.not_eq_true] at hm
    simp [classifyCategories, hm] at h
  exact applyModerationRules_reason_of_rejected th ru f hm

/-- C8: for three frames whose classifier outputs make frame 1 accepted and
frame 2 rejected, the frame loop stops after frame 2 — exactly two classifier
calls, frame 3 is never submitted — and the video verdict is `"rejected"`
with frame 2's rejection reason propagated. -/
theorem moderateVideo_short_circuit (th : Thresholds) (ru : Rules) (f1 f2 f3 : List CategoryScore)
    (h1 : (classifyCategories th ru f1).verdict = "accepted")
    (h2 : (classifyCategories th ru f2).verdict = "rejected") :
    (processFrames th ru [f1, f2, f3]).length = 2 ∧
    (moderateVideo th ru [f1, f2, f3]).verdict = "rejected" ∧
    (moderateVideo th ru [f1, f2, f3]).rejectionReason =
      (classifyCategories th ru f2).rejectionReason := by
  obtain ⟨s, hs⟩ := classify_rejected_reason th ru f2 h2
  have e1 : ((classifyCategories th ru f1).verdict == "rejected") = false := by
    rw [h1]; decide
  have e2 : ((classifyCategories th ru f2).verdict == "rejected") = true := by
    rw [h2]; decide
  have hp : processFrames th ru [f1, f2, f3] =
      [classifyCategories th ru f1, classifyCategories th ru f2] := by
    simp [processFrames, e1, e2]
  refine ⟨by rw [hp]; rfl, ?_, ?_⟩
  · rw [moderateVideo, hp]
    simp [calculateVideoVerdict, List.find?, e1, e2]
  · rw [moderateVideo, hp]
    simp [calculateVideoVerdict, List.find?, e1, e2, hs]

/-- Witness for C8 at a concrete input: frame 1 empty (accepted), frame 2 a
`Child` detection (rejected), frame 3 arbitrary. -/
theorem moderateVideo_short_circuit_witness :
    ((classifyCategories defaultThresholds defaultRules []).verdict = "accepted" ∧
      (classifyCategories defaultThresholds defaultRules
          [CategoryScore.mk "Child" (some 1)]).verdict = "rejected") ∧
    ((processFrames defaultThresholds defaultRules
        [[], [CategoryScore.mk "Child" (some 1)], []]).length = 2 ∧
      (moderateVideo defaultThresholds defaultRules
          [[], [CategoryScore.mk "Child" (some 1)], []]).verdict = "rejected" ∧
      (moderateVideo defaultThresholds defaultRules
          [[], [CategoryScore.mk "Child" (some 1)], []]).rejectionReason =
        (classifyCategories defaultThresholds defaultRules
            [CategoryScore.mk "Child" (some 1)]).rejectionReason) :=
  ⟨⟨by decide, by decide⟩,
    moderateVideo_short_circuit defaultThresholds defaultRules _ _ _ (by decide) (by decide)⟩

/-- Without a rejected frame the loop classifies every frame in order. -/
theorem processFrames_map (th : Thresholds) (ru : Rules) (frames : List (List CategoryScore))
    (h : ∀ f ∈ frames, (classifyCategories th ru f).verdict = "accepted") :
    processFrames th ru frames = frames.map (classifyCategories th ru) := by
  induction frames with
  | nil => rfl
  | cons f fs ih =>
    have e : ((classifyCategories th ru f).verdict == "rejected") = false := by
      rw [h f (List.mem_cons_self f fs)]; decide
    simp [processFrames, e, ih (fun g hg => h g (List.mem_cons_of_mem f hg))]

/-- C9: when every frame is accepted, the video verdict is `"accepted"`, its
categories are the concatenation of all frames' category lists, its reason is
null, and its aggregate score is the mean over that concatenation — the very
score a single-image classification of the combined list would report. -/
theorem moderateVideo_all_accepted (th : Thresholds) (ru : Rules)
    (frames : List (List CategoryScore))
    (h : ∀ f ∈ frames, (classifyCategories th ru f).verdict = "accepted") :
    (moderateVideo th ru frames).verdict = "accepted" ∧
    (moderateVideo th ru frames).categories = frames.flatten ∧
    (moderateVideo th ru frames).rejectionReason = none ∧
    (moderateVideo th ru frames).ai_score = (classifyCategories th ru frames.flatten).ai_score := by
  have hp := processFrames_map th ru frames h
  have hfind : (frames.map (classifyCategories th ru)).find?
      (fun r => r.verdict == "rejected") = none := by
    rw [List.find?_eq_none]
    intro r hr
    obtain ⟨f, hf, rfl⟩ := List.mem_map.mp hr
    simp [h f hf]
  have hcomp : ((fun (r : ClassificationResult) => r.categories) ∘ classifyCategories th ru) =
      fun f => f := by
    funext f
    rfl
  have hcats : ((frames.map (classifyCategories th ru)).map (fun r => r.categories)).flatten =
      frames.flatten := by
    rw [List.map_map, hcomp]
    simp
  rw [moderateVideo, hp]
  simp [calculateVideoVerdict, hfind, List.map_map, hcomp, classifyCategories]

/-- Witness for C9 at a concrete input: two accepted frames with `Sexual`
severities 1 and 2 under the defaults. -/
theorem moderateVideo_all_accepted_witness :
    (∀ f ∈ [[CategoryScore.mk "Sexual" (some 1)], [CategoryScore.mk "Sexual" (some 2)]],
        (classifyCategories defaultThresholds defaultRules f).verdict = "accepted") ∧
    ((moderateVideo defaultThresholds defaultRules
        [[CategoryScore.mk "Sexual" (some 1)], [CategoryScore.mk "Sexual" (some 2)]]).verdict = "accepted" ∧
      (moderateVideo defaultThresholds defaultRules
          [[CategoryScore.mk "Sexual" (some 1)], [CategoryScore.mk "Sexual" (some 2)]]).categories =
        [[CategoryScore.mk "Sexual" (some 1)], [CategoryScore.mk "Sexual" (some 2)]].flatten ∧
      (moderateVideo defaultThresholds defaultRules
          [[CategoryScore.mk "Sexual" (some 1)], [CategoryScore.mk "Sexual" (some 2)]]).rejectionReason = none ∧
      (moderateVideo defaultThresholds defaultRules
          [[CategoryScore.mk "Sexual" (some 1)], [CategoryScore.mk "Sexual" (some 2)]]).ai_score =
        (classifyCategories defaultThresholds defaultRules
            [[CategoryScore.mk "Sexual" (some 1)], [CategoryScore.mk "Sexual" (some 2)]].flatten).ai_score) :=
  ⟨by decide, moderateVideo_all_accepted defaultThresholds defaultRules _ (by decide)⟩
